import Mathlib

/-!
# Verification of the WhatsApp lead-management bot (`bot.js`)

Shallow embedding of the lead detection and tracking engine of `bot.js`:
the quick pattern classifier (`AILeadDetector.quickPatternCheck`), the
keyword classifier (`isLeadMessage`), the lead store (`LeadManager`), and
the group-message branch of the `messages.upsert` handler.

The JavaScript regular expressions used by the classifiers are embedded as
a small backtracking matcher (`RE` / `matchCore`) that mirrors JavaScript
`String.prototype.match` semantics for the pattern shapes occurring in the
source: leftmost starting position wins, alternatives are tried in order,
repetitions are greedy with backtracking, and the `/i` flag is modelled by
case-insensitive literal comparison.

JavaScript numbers are IEEE doubles.  Confidence weights in the source are
the decimal literals 0.1/0.2/0.3; they are embedded as integer tenths
(`confidenceTenths`), which agrees with the float computation at every
comparison appearing in the claims under verification (all of which are
decided far from a float rounding boundary).  Extracted amounts are exact
integers in the source (`parseFloat` of `\d+(\.\d{2})?` times 1000), so
they are embedded as `Nat`.
-/

namespace WABot

/-- Pattern language covering exactly the regex constructs used by
`bot.js`: literals, ordered alternation, greedy bounded repetition of a
character class, concatenation and greedy option. -/
inductive RE : Type where
  | eps : RE
  | lit : List Char → RE
  | altR : RE → RE → RE
  | cls : (Char → Bool) → Nat → Option Nat → RE
  | cat : RE → RE → RE
  | optR : RE → RE

/-- Case-insensitive character comparison (the `/i` flag). -/
def lowerEq (a b : Char) : Bool := a.toLower = b.toLower

/-- Match a literal (case-insensitively), returning the remaining input. -/
def litMatch : List Char → List Char → Option (List Char)
  | [], cs => some cs
  | _ :: _, [] => none
  | p :: ps, c :: cs => if lowerEq p c then litMatch ps cs else none

/-- Length of the maximal prefix of characters satisfying `p`. -/
def runLen (p : Char → Bool) : List Char → Nat
  | [] => 0
  | c :: cs => if p c then runLen p cs + 1 else 0

/-- Greedy repetition: try consuming `lo + n` characters first, then
backtrack one character at a time down to `lo`. -/
def tryCounts (k : List Char → Option (List Char)) (cs : List Char)
    (lo : Nat) : Nat → Option (List Char)
  | 0 => k (cs.drop lo)
  | n + 1 =>
    match k (cs.drop (lo + n + 1)) with
    | some r => some r
    | none => tryCounts k cs lo n

/-- Backtracking matcher in continuation style, anchored at the start of
`cs`.  Alternatives are tried left to right and repetitions are greedy,
as in the JavaScript engine. -/
def matchCore : RE → List Char → (List Char → Option (List Char)) →
    Option (List Char)
  | .eps, cs, k => k cs
  | .lit s, cs, k =>
    match litMatch s cs with
    | some rest => k rest
    | none => none
  | .altR a b, cs, k =>
    match matchCore a cs k with
    | some r => some r
    | none => matchCore b cs k
  | .cls p lo hi, cs, k =>
    let run := runLen p cs
    let top := match hi with | none => run | some h => min h run
    if lo ≤ top then tryCounts k cs lo (top - lo) else none
  | .cat a b, cs, k => matchCore a cs (fun rest => matchCore b rest k)
  | .optR r, cs, k =>
    match matchCore r cs k with
    | some res => some res
    | none => k cs

/-- A source pattern with one capture group: a prefix part, the capture
group itself, and a suffix part. -/
structure FieldPattern where
  pre : RE
  cap : RE
  post : RE

/-- Match a `FieldPattern` anchored at the start of `cs` and return the
characters consumed by the capture group. -/
def matchPatAux (p : FieldPattern) (cs : List Char) : Option (List Char) :=
  matchCore p.pre cs fun r1 =>
    matchCore p.cap r1 fun r2 =>
      matchCore p.post r2 fun _ =>
        some (r1.take (r1.length - r2.length))

/-- Leftmost match: try the anchored matcher at every starting position,
earliest position first (JavaScript `String.prototype.match`). -/
def scanFrom (f : List Char → Option (List Char)) :
    List Char → Option (List Char)
  | [] => f []
  | c :: cs =>
    match f (c :: cs) with
    | some r => some r
    | none => scanFrom f cs

/-- `text.match(pattern)[1]`: the capture of the leftmost match. -/
def runPattern (p : FieldPattern) (s : String) : Option String :=
  (scanFrom (matchPatAux p) s.toList).map fun cs => String.mk cs

/-- `pattern.test(text)`. -/
def reTest (r : RE) (s : String) : Bool :=
  (scanFrom (fun cs => matchCore r cs fun rest => some rest) s.toList).isSome

/- Character classes appearing in the source patterns. -/

/-- `\s` (ASCII whitespace). -/
def isWs (c : Char) : Bool :=
  c = ' ' || c = '\t' || c = '\n' || c = '\r' || c = '\x0b' || c = '\x0c'

/-- `[\s:]`. -/
def isSpColon (c : Char) : Bool := isWs c || c = ':'

/-- `[a-zA-Z]`. -/
def isAlphaC (c : Char) : Bool := c.isAlpha

/-- `[a-zA-Z0-9]`. -/
def isAlnumC (c : Char) : Bool := c.isAlphanum

/-- `[a-zA-Z\s]`. -/
def isAlphaSp (c : Char) : Bool := isAlphaC c || isWs c

/-- `[a-zA-Z\s\.]`. -/
def isNameChar (c : Char) : Bool := isAlphaC c || isWs c || c = '.'

/-- `\w`. -/
def isWordC (c : Char) : Bool := isAlnumC c || c = '_'

/-- `[\w\.-]`. -/
def isWordDotDash (c : Char) : Bool := isWordC c || c = '.' || c = '-'

/-- `[k]` under `/i`. -/
def isKChar (c : Char) : Bool := c.toLower = 'k'

/-- Ordered alternation of literal strings `(?:s1|s2|...)`. -/
def strAlts : List String → RE
  | [] => .eps
  | [s] => .lit s.toList
  | s :: rest => .altR (.lit s.toList) (strAlts rest)

/-- `[\s:]*`. -/
def sepStar : RE := .cls isSpColon 0 none

/-- `[\s:]+`. -/
def sepPlus : RE := .cls isSpColon 1 none

/-- `\s*`. -/
def wsStar : RE := .cls isWs 0 none

/-- `(\d+(?:\.\d{2})?)`, the numeric capture body. -/
def numBody : RE :=
  .cat (.cls Char.isDigit 1 none)
    (.optR (.cat (.lit ['.']) (.cls Char.isDigit 2 (some 2))))

/-!
## `AILeadDetector.quickPatterns` (bot.js lines 402-411)

Each pattern is transcribed field by field.  An alternative of the form
`mr\.?` is expanded to the equivalent ordered pair of literal
alternatives `mr.`, `mr` (greedy option inside an alternative).
-/

/-- `amount: /(?:loan|amount|limit|emi)[\s:]*(\d+(?:\.\d{2})?)[k]?/i`. -/
def amountQP : FieldPattern :=
  ⟨.cat (strAlts ["loan", "amount", "limit", "emi"]) sepStar,
   numBody, .cls isKChar 0 (some 1)⟩

/-- `name: /(?:name|patient|cx|customer|mr\.?|mrs\.?|ms\.?|dr\.?)[\s:]+([a-zA-Z\s\.]+)/i`. -/
def nameQP : FieldPattern :=
  ⟨.cat (strAlts ["name", "patient", "cx", "customer", "mr.", "mr",
      "mrs.", "mrs", "ms.", "ms", "dr.", "dr"]) sepPlus,
   .cls isNameChar 1 none, .eps⟩

/-- `phone: /(?:phone|mobile|number|contact)[\s:]*(\d{10})/i`. -/
def phoneQP : FieldPattern :=
  ⟨.cat (strAlts ["phone", "mobile", "number", "contact"]) sepStar,
   .cls Char.isDigit 10 (some 10), .eps⟩

/-- `pan: /(?:pan|pancard)[\s:]*([a-zA-Z0-9]{10})/i`. -/
def panQP : FieldPattern :=
  ⟨.cat (strAlts ["pan", "pancard"]) sepStar,
   .cls isAlnumC 10 (some 10), .eps⟩

/-- `urgency: /(?:asap|urgent|immediate|now|today|waiting)/i`. -/
def urgencyQP : RE :=
  strAlts ["asap", "urgent", "immediate", "now", "today", "waiting"]

/-- `location: /(?:location|area|branch)[\s:]*([a-zA-Z\s]+)/i`. -/
def locationQP : FieldPattern :=
  ⟨.cat (strAlts ["location", "area", "branch"]) sepStar,
   .cls isAlphaSp 1 none, .eps⟩

/-- `loan: /(?:loan|finance|credit|bajaj)[\s:]*([a-zA-Z\s]+)/i`. -/
def loanQP : FieldPattern :=
  ⟨.cat (strAlts ["loan", "finance", "credit", "bajaj"]) sepStar,
   .cls isAlphaSp 1 none, .eps⟩

/-- `purpose: /(?:purpose|for|need)[\s:]*([a-zA-Z\s]+)/i`. -/
def purposeQP : FieldPattern :=
  ⟨.cat (strAlts ["purpose", "for", "need"]) sepStar,
   .cls isAlphaSp 1 none, .eps⟩

/-- Digit string to number. -/
def digitsVal (cs : List Char) : Nat :=
  cs.foldl (fun n c => 10 * n + (c.toNat - '0'.toNat)) 0

/-- Integer and two-digit-fraction parts of a capture of `numBody`. -/
def parseNumParts (cs : List Char) : Nat × Nat :=
  let intPart := cs.takeWhile Char.isDigit
  match cs.dropWhile Char.isDigit with
  | '.' :: fs => (digitsVal intPart, digitsVal (fs.takeWhile Char.isDigit))
  | _ => (digitsVal intPart, 0)

/-- `parseFloat(capture) * 1000`, exact because the capture matches
`\d+(\.\d{2})?`: `(n + f/100) * 1000 = 1000*n + 10*f`. -/
def amountTimes1000 (s : String) : Nat :=
  let p := parseNumParts s.toList
  1000 * p.1 + 10 * p.2

/-- `extractedInfo` of `quickPatternCheck` (the `contact` / `financial` /
`location` sub-objects flattened into the fields the source writes). -/
structure ExtractedInfo where
  amount : Option Nat
  name : Option String
  phone : Option String
  pan : Option String
  purpose : Option String
  loanType : Option String
  urgency : Option String
  area : Option String
deriving Repr, DecidableEq

/-- Return value of `quickPatternCheck` (bot.js lines 669-677).
`confidenceTenths` is the source's float `confidence` scaled by 10. -/
structure QuickResult where
  isLead : Bool
  confidenceTenths : Nat
  priority : String
  extractedInfo : ExtractedInfo
  isNewLead : Bool
  relatedToExisting : Bool
deriving Repr, DecidableEq

/-- `AILeadDetector.quickPatternCheck` (bot.js lines 597-678): each field
pattern is matched; a successful match stores the (trimmed) capture,
sets `isPotentialLead` and adds its weight to `confidence`; the urgency
keyword adds weight without setting `isPotentialLead`.  The returned
object carries the literal constants `isNewLead: true` and
`relatedToExisting: false`. -/
def quickPatternCheck (text : String) : QuickResult :=
  let amountM := runPattern amountQP text
  let nameM := runPattern nameQP text
  let phoneM := runPattern phoneQP text
  let panM := runPattern panQP text
  let purposeM := runPattern purposeQP text
  let loanM := runPattern loanQP text
  let urgencyB := reTest urgencyQP text
  let locationM := runPattern locationQP text
  let isPotentialLead := amountM.isSome || nameM.isSome || phoneM.isSome ||
    panM.isSome || purposeM.isSome || loanM.isSome || locationM.isSome
  let conf := (if amountM.isSome then 3 else 0) +
    (if nameM.isSome then 2 else 0) +
    (if phoneM.isSome then 2 else 0) +
    (if panM.isSome then 1 else 0) +
    (if purposeM.isSome then 1 else 0) +
    (if loanM.isSome then 1 else 0) +
    (if urgencyB then 1 else 0) +
    (if locationM.isSome then 1 else 0)
  { isLead := isPotentialLead
    confidenceTenths := conf
    priority := if 6 < conf then "High" else if 3 < conf then "Medium" else "Low"
    extractedInfo :=
      { amount := amountM.map amountTimes1000
        name := nameM.map String.trim
        phone := phoneM
        pan := panM
        purpose := purposeM.map String.trim
        loanType := loanM.map String.trim
        urgency := if urgencyB then some "High" else none
        area := locationM.map String.trim }
    isNewLead := true
    relatedToExisting := false }

/-!
## `leadPatterns` and `isLeadMessage` (bot.js lines 1141-1168, 1258-1333)
-/

/-- `name: /(?:name|patient|cx|customer)[\s:]+([a-zA-Z\s]+)/i`. -/
def nameLP : RE :=
  .cat (strAlts ["name", "patient", "cx", "customer"])
    (.cat sepPlus (.cls isAlphaSp 1 none))

/-- `phone: /(?:phone|mobile|number|contact)[\s:]*(\d{10})/i`. -/
def phoneLP : RE :=
  .cat (strAlts ["phone", "mobile", "number", "contact"])
    (.cat sepStar (.cls Char.isDigit 10 (some 10)))

/-- `email: /[\w\.-]+@[\w\.-]+\.\w+/i`. -/
def emailLP : RE :=
  .cat (.cls isWordDotDash 1 none)
    (.cat (.lit ['@'])
      (.cat (.cls isWordDotDash 1 none)
        (.cat (.lit ['.']) (.cls isWordC 1 none))))

/-- `pan: /(?:pan|pancard)[\s:]*([a-zA-Z0-9]{10})/i`. -/
def panLP : RE :=
  .cat (strAlts ["pan", "pancard"]) (.cat sepStar (.cls isAlnumC 10 (some 10)))

/-- `amount: /(?:amount|loan|limit)[\s:]*(\d+(?:\.\d{2})?)[k]?/i`. -/
def amountLP : RE :=
  .cat (strAlts ["amount", "loan", "limit"])
    (.cat sepStar (.cat numBody (.cls isKChar 0 (some 1))))

/-- `tenure: /(?:tenure|scheme)[\s:]*(\d+)\/(\d+)/i`. -/
def tenureLP : RE :=
  .cat (strAlts ["tenure", "scheme"])
    (.cat sepStar
      (.cat (.cls Char.isDigit 1 none)
        (.cat (.lit ['/']) (.cls Char.isDigit 1 none))))

/-- `emi: /(?:emi|monthly)[\s:]*(\d+(?:\.\d{2})?)/i`. -/
def emiLP : RE := .cat (strAlts ["emi", "monthly"]) (.cat sepStar numBody)

/-- `topup: /(?:top\s*up|additional|more)[\s:]*(\d+(?:\.\d{2})?)[k]?/i`. -/
def topupLP : RE :=
  .cat (.altR (.cat (.lit ['t', 'o', 'p']) (.cat wsStar (.lit ['u', 'p'])))
      (.altR (.lit "additional".toList) (.lit "more".toList)))
    (.cat sepStar (.cat numBody (.cls isKChar 0 (some 1))))

/-- `branch: /(?:branch|area)[\s:]*([a-zA-Z\s]+)/i`. -/
def branchLP : RE :=
  .cat (strAlts ["branch", "area"]) (.cat sepStar (.cls isAlphaSp 1 none))

/-- `city: /(?:city|location)[\s:]*([a-zA-Z\s]+)/i`. -/
def cityLP : RE :=
  .cat (strAlts ["city", "location"]) (.cat sepStar (.cls isAlphaSp 1 none))

/-- `immediate: /(?:asap|urgent|immediate|now|today|waiting)/i`. -/
def immediateLP : RE := urgencyQP

/-- `followup: /(?:follow\s*up|update|status|progress)/i`. -/
def followupLP : RE :=
  .altR (.cat (.lit "follow".toList) (.cat wsStar (.lit ['u', 'p'])))
    (.altR (.lit "update".toList)
      (.altR (.lit "status".toList) (.lit "progress".toList)))

/-- `existing: /(?:existing|current|old)[\s:]*customer/i`. -/
def existingLP : RE :=
  .cat (strAlts ["existing", "current", "old"])
    (.cat sepStar (.lit "customer".toList))

/-- `new: /(?:new|fresh)[\s:]*customer/i`. -/
def newCustLP : RE :=
  .cat (strAlts ["new", "fresh"]) (.cat sepStar (.lit "customer".toList))

/-- `approved: /(?:approved|eligible|available)/i`. -/
def approvedLP : RE := strAlts ["approved", "eligible", "available"]

/-- `rejected: /(?:rejected|not\s*approved|not\s*eligible)/i`. -/
def rejectedLP : RE :=
  .altR (.lit "rejected".toList)
    (.altR (.cat (.lit "not".toList) (.cat wsStar (.lit "approved".toList)))
      (.cat (.lit "not".toList) (.cat wsStar (.lit "eligible".toList))))

/-- `leadDetails` accumulated by `isLeadMessage`; `confidenceTenths` is
the source's float `confidence` scaled by 10. -/
structure LeadDetails where
  hasCustomerInfo : Bool
  hasLoanInfo : Bool
  hasLocationInfo : Bool
  isUrgent : Bool
  isExistingCustomer : Bool
  isNewCustomer : Bool
  status : Option String
  requiresFollowup : Bool
  confidenceTenths : Nat
deriving Repr, DecidableEq

/-- Result of `isLeadMessage`.  For a falsy message the source returns the
bare boolean `false`; this is embedded as a result whose `isLead` is
`false` with empty details. -/
structure LeadMessageResult where
  isLead : Bool
  leadDetails : LeadDetails
deriving Repr, DecidableEq

/-- `isLeadMessage` (bot.js lines 1258-1333): lower-cases the message,
tests the `leadPatterns` groups, accumulates category weights
(customer 0.3, loan 0.3, location 0.2, urgency 0.1, status 0.1) and
requires accumulated confidence ≥ 0.3 on top of at least one matched
category flag. -/
def isLeadMessage (message : String) : LeadMessageResult :=
  if message = "" then
    ⟨false, false, false, false, false, false, false, none, false, 0⟩
  else
    let msg := message.toLower
    let customer := reTest nameLP msg || reTest phoneLP msg ||
      reTest emailLP msg || reTest panLP msg
    let loanInfo := reTest amountLP msg || reTest tenureLP msg ||
      reTest emiLP msg || reTest topupLP msg
    let locInfo := reTest branchLP msg || reTest cityLP msg
    let urgent := reTest immediateLP msg
    let existing := reTest existingLP msg
    let fresh := !existing && reTest newCustLP msg
    let conf := (if customer then 3 else 0) + (if loanInfo then 3 else 0) +
      (if locInfo then 2 else 0) + (if urgent then 1 else 0) +
      (if existing || fresh then 1 else 0)
    let leadFlag := customer || loanInfo || locInfo
    { isLead := leadFlag && decide (3 ≤ conf)
      leadDetails :=
        { hasCustomerInfo := customer
          hasLoanInfo := loanInfo
          hasLocationInfo := locInfo
          isUrgent := urgent
          isExistingCustomer := existing
          isNewCustomer := fresh
          status := if reTest approvedLP msg then some "approved"
            else if reTest rejectedLP msg then some "rejected" else none
          requiresFollowup := reTest followupLP msg
          confidenceTenths := conf } }

/-!
## `LeadManager` (bot.js lines 255-385)

Lead records live in a JavaScript `Map`, embedded as an association list
with `Map.set` replace-or-append semantics.  `stateManager.saveState`
is embedded as a `persisted` snapshot field, updated by `saveLeads`.
ISO timestamps are abstracted as `Nat` clock values supplied by the
caller; the id suffix `Math.random().toString(36).substr(2, 9)` is a
caller-supplied string.
-/

/-- One entry of `lead.history`. -/
structure HistEntry where
  action : String
  timestamp : Nat
  details : String
deriving Repr, DecidableEq

/-- The data fields passed to `createLead` that the lead logic reads
(`categorizeLead` reads `isUrgent` and `amount`; an absent `amount` makes
both JavaScript comparisons `amount > 100000`, `amount > 50000` false). -/
structure LeadData where
  name : Option String
  phone : Option String
  amount : Option Nat
  isUrgent : Bool
deriving Repr, DecidableEq

/-- A persisted lead record. -/
structure Lead where
  id : String
  data : LeadData
  assignee : Option String
  status : String
  category : String
  createdAt : Nat
  updatedAt : Nat
  history : List HistEntry
deriving Repr, DecidableEq

/-- `Map.get`. -/
def lookupLead (m : List (String × Lead)) (id : String) : Option Lead :=
  (m.find? fun p => p.1 = id).map Prod.snd

/-- `Map.set`: replace the binding if the key is present, else append. -/
def setLead (m : List (String × Lead)) (id : String) (l : Lead) :
    List (String × Lead) :=
  if (m.find? fun p => p.1 = id).isSome then
    m.map fun p => if p.1 = id then (id, l) else p
  else m ++ [(id, l)]

/-- The `LeadManager`'s mutable state together with the key-value store
snapshot written by `saveLeads`. -/
structure LMWorld where
  leads : List (String × Lead)
  persisted : List (String × Lead)
deriving Repr, DecidableEq

/-- `undefined`-tolerant `>` on the optional amount. -/
def optGtNat : Option Nat → Nat → Bool
  | none, _ => false
  | some a, n => n < a

/-- `LeadManager.categorizeLead` (bot.js lines 292-300). -/
def categorizeLead (d : LeadData) : String :=
  if d.isUrgent || optGtNat d.amount 100000 then "High"
  else if optGtNat d.amount 50000 then "Medium"
  else "Low"

/-- `LeadManager.createLead` (bot.js lines 271-290): fresh id from clock
and random suffix, `status: 'New'`, category from `categorizeLead`, a
single `Created` history entry, then `saveLeads`. -/
def createLead (now : Nat) (rand : String) (d : LeadData) (w : LMWorld) :
    Lead × LMWorld :=
  let id := "LEAD-" ++ toString now ++ "-" ++ rand
  let lead : Lead :=
    { id := id
      data := d
      assignee := none
      status := "New"
      category := categorizeLead d
      createdAt := now
      updatedAt := now
      history := [⟨"Created", now, "Lead created"⟩] }
  let leads := setLead w.leads id lead
  (lead, ⟨leads, leads⟩)

/-- An update object passed to `updateLead`; the object spread
`{...lead, ...updates}` overrides exactly the keys present. -/
structure LeadPatch where
  status : Option String
  assignee : Option String
deriving Repr, DecidableEq

/-- `JSON.stringify(updates)` abstracted to a textual summary of the
fields present in the patch (JSON punctuation is not modelled; no claim
inspects the exact rendering). -/
def renderPatch (p : LeadPatch) : String :=
  String.intercalate ", "
    ((p.status.map fun s => "status: " ++ s).toList ++
      (p.assignee.map fun a => "assignee: " ++ a).toList)

/-- `{...lead, ...updates}`. -/
def applyPatch (l : Lead) (p : LeadPatch) : Lead :=
  { l with
    status := p.status.getD l.status
    assignee := match p.assignee with | some a => some a | none => l.assignee }

/-- `LeadManager.updateLead` (bot.js lines 302-323): throws
`'Lead not found'` for an unknown id (embedded as `Except.error`, state
unchanged); otherwise merges the patch, stamps `updatedAt`, appends one
`Updated` history entry and runs `saveLeads` before returning. -/
def updateLead (now : Nat) (id : String) (p : LeadPatch) (w : LMWorld) :
    Except String Lead × LMWorld :=
  match lookupLead w.leads id with
  | none => (Except.error "Lead not found", w)
  | some l =>
    let l2 :=
      { applyPatch l p with
        updatedAt := now
        history := l.history ++ [⟨"Updated", now, renderPatch p⟩] }
    let leads := setLead w.leads id l2
    (Except.ok l2, ⟨leads, leads⟩)

/-- `LeadManager.calculateConversionRate` (bot.js lines 375-379):
`total > 0 ? (closed / total) * 100 : 0`. -/
def calculateConversionRate (leads : List Lead) : ℚ :=
  let closed := (leads.filter fun l => l.status = "Closed").length
  let total := leads.length
  if 0 < total then ((closed : ℚ) / (total : ℚ)) * 100 else 0

/-!
## The `messages.upsert` group branch (bot.js lines 1842-1997)
-/

/-- `groupsToMonitor` (bot.js lines 1081-1102). -/
def groupsToMonitor : List String :=
  ["Bajaj + Dr Agarwal rajji nagar",
   "Bajaj + Dr Shetty",
   "Orane + Bajaj finserv",
   "Partha+Bajaj Bangalore",
   "Bajaj + Nethradama Rajajinagar",
   "Headz + Bajaj FINSERV",
   "Bajaj +REHABILITATIONS specialist",
   "Bajaj + Ad gro (OZIVIT)",
   "Bajaj+ Priya hearing",
   "Bajaj-Rehamo",
   "Bajaj+ Baby sience",
   "Bajaj+ LAKME RAJJINAGAR",
   "Bajaj + Isha",
   "VASAN EYE CARE + BAJAJ FINSERV",
   "LC Rok + bajaj",
   "Bajaj Fin and SleepMed",
   "Bajaj+Partha Dasarahalli",
   "Vlcc + bajaj rajji nagar",
   "Bajaj + Cozmo BLIS",
   "Bajaj Finance+Smiles.ai"]

/-- Every name bound at the top level of `bot.js` (the `require`
destructurings and all `const`/`let`/`function`/`class` declarations),
transcribed from the source.  The group branch of the message handler
dereferences `leadTracker`, which does not occur in this list — nor
anywhere else in the repository — so that dereference throws
`ReferenceError: leadTracker is not defined` at runtime. -/
def botTopLevelNames : List String :=
  ["makeWASocket", "useMultiFileAuthState", "DisconnectReason", "pino",
   "Boom", "fs", "path", "qrcode",
   "MessageQueue", "messageQueue", "StateManager", "stateManager",
   "RateLimiter", "rateLimiter", "LeadManager", "leadManager",
   "SISTER_NUMBER", "AILeadDetector", "aiLeadDetector", "TerminalUI",
   "terminalUI", "logger", "processedMessages", "STATE_DIR",
   "LAST_GREETING_FILE", "LAST_RESPONSE_FILE", "MESSAGES_PER_DAY_FILE",
   "LAST_MESSAGE_DATE_FILE", "loadStateFromFile", "saveStateToFile",
   "lastGreetingSent", "lastTestResponseSent", "messagesPerDayInGroup",
   "lastMessageDateInGroup", "respondedToMessages", "isProcessingMessage",
   "isSendingResponse", "MAX_GREETINGS_PER_DAY_IN_GROUP",
   "groupsToMonitor", "specialGroupRules", "professionalGreetings",
   "leadPatterns", "vibrationPatterns", "testLeadTemplates",
   "formatTestLead", "getTimeBasedGreeting", "isLeadMessage",
   "testContacts", "sendLeadAlerts", "vibrateOnNewLeads",
   "vibrationDuration", "notificationMethods", "sendLeadNotifications",
   "playSoundNotification", "notifyNewLead", "vibrateForLead",
   "sendLeadAlert", "testGroups", "logLead", "getGroupId",
   "startTestMenu", "startWhatsAppBot", "handleLeadResponse",
   "checkForLeadPatterns"]

/-- The parts of an inbound group message event the handler reads. -/
structure GroupMessage where
  messageId : String
  fromMe : Bool
  combinedContent : String
  remoteJid : String
deriving Repr, DecidableEq

/-- How the per-message group branch ends. -/
inductive GroupOutcome where
  | skippedProcessed : GroupOutcome
  | skippedFromMe : GroupOutcome
  | skippedEmpty : GroupOutcome
  | skippedUnmonitored : GroupOutcome
  | skippedMonitoringOff : GroupOutcome
  | caughtError : String → GroupOutcome
  | leadPath : GroupOutcome
deriving Repr, DecidableEq

/-- Handler-visible state: the lead store plus the processed-message-id
markers and the outbound messages handed to `messageQueue.add`. -/
structure HandlerWorld where
  lm : LMWorld
  processedIds : List String
  sent : List (String × String)
deriving Repr, DecidableEq

/-- The group-message branch of the `messages.upsert` handler (bot.js
lines 1842-1984) for one message of a batch: skip already-processed ids
(marking first), skip own messages, skip empty content, skip
non-monitored groups and disabled monitoring; the `try` block then
evaluates `leadTracker.hasCheckedLead(...)` (line 1918).  `leadTracker`
has no declaration in the program (`botTopLevelNames`), so that statement
throws before any lead is created or any reply queued, and the `catch`
(line 1982) swallows the error.  The `leadPath` arm is reachable only if
`leadTracker` were a declared name. -/
def processGroupMessage (monitoring : Bool) (groupName : String)
    (m : GroupMessage) (w : HandlerWorld) : GroupOutcome × HandlerWorld :=
  if w.processedIds.contains m.messageId then (.skippedProcessed, w)
  else
    let w1 : HandlerWorld :=
      { w with processedIds := m.messageId :: w.processedIds }
    if m.fromMe then (.skippedFromMe, w1)
    else if m.combinedContent = "" then (.skippedEmpty, w1)
    else if !(groupsToMonitor.contains groupName) then (.skippedUnmonitored, w1)
    else if !monitoring then (.skippedMonitoringOff, w1)
    else if !(botTopLevelNames.contains "leadTracker") then
      (.caughtError "leadTracker is not defined", w1)
    else (.leadPath, w1)

/-!
## Outbound Throttle

Modelled from the spec: the Outbound Throttle's `mayRespond` /
`recordResponse` (spec §4.6) have no implementation in `src/` — `bot.js`
only declares their persisted state (`lastTestResponseSent`, loaded at
line 1053 with the comment "This prevents sending multiple test responses
in a short time", and `MAX_GREETINGS_PER_DAY_IN_GROUP` at line 1078) and
the acknowledgement send sites (lines 1971-1976, 2036).  The
acknowledgement-cooldown rule is taken from the spec's words: an
acknowledgement may be sent iff no acknowledgement was ever sent to that
conversation, or at least 60 minutes (3 600 000 ms) have elapsed since
the last one.
-/

/-- Per-conversation timestamp (ms) of the last acknowledgement sent. -/
structure ThrottleState where
  lastAck : List (String × Nat)
deriving Repr, DecidableEq

/-- Look up the last-acknowledgement time of a conversation. -/
def lastAckTime (st : ThrottleState) (conv : String) : Option Nat :=
  (st.lastAck.find? fun p => p.1 = conv).map Prod.snd

/-- Modelled from the spec (§4.6): `mayRespond(conversationId,
acknowledgement)` — allowed iff first-ever, or ≥ 60 minutes elapsed. -/
def mayRespond (st : ThrottleState) (conv : String) (now : Nat) : Bool :=
  match lastAckTime st conv with
  | none => true
  | some t => t + 3600000 ≤ now

/-- Modelled from the spec (§4.6): `recordResponse(conversationId,
acknowledgement)` stamps the current time for the conversation. -/
def recordResponse (st : ThrottleState) (conv : String) (now : Nat) :
    ThrottleState :=
  ⟨(conv, now) :: st.lastAck.filter fun p => p.1 ≠ conv⟩

/-!
## Projection lemmas for `quickPatternCheck` (shared helpers)
-/

theorem qpc_isLead (text : String) :
    (quickPatternCheck text).isLead =
      ((runPattern amountQP text).isSome || (runPattern nameQP text).isSome ||
        (runPattern phoneQP text).isSome || (runPattern panQP text).isSome ||
        (runPattern purposeQP text).isSome || (runPattern loanQP text).isSome ||
        (runPattern locationQP text).isSome) := rfl

theorem qpc_conf (text : String) :
    (quickPatternCheck text).confidenceTenths =
      (if (runPattern amountQP text).isSome then 3 else 0) +
      (if (runPattern nameQP text).isSome then 2 else 0) +
      (if (runPattern phoneQP text).isSome then 2 else 0) +
      (if (runPattern panQP text).isSome then 1 else 0) +
      (if (runPattern purposeQP text).isSome then 1 else 0) +
      (if (runPattern loanQP text).isSome then 1 else 0) +
      (if reTest urgencyQP text then 1 else 0) +
      (if (runPattern locationQP text).isSome then 1 else 0) := rfl

theorem qpc_priority (text : String) :
    (quickPatternCheck text).priority =
      (if 6 < (quickPatternCheck text).confidenceTenths then "High"
       else if 3 < (quickPatternCheck text).confidenceTenths then "Medium"
       else "Low") := rfl

theorem qpc_amount (text : String) :
    (quickPatternCheck text).extractedInfo.amount =
      (runPattern amountQP text).map amountTimes1000 := rfl

theorem qpc_name (text : String) :
    (quickPatternCheck text).extractedInfo.name =
      (runPattern nameQP text).map String.trim := rfl

theorem qpc_phone (text : String) :
    (quickPatternCheck text).extractedInfo.phone = runPattern phoneQP text := rfl

theorem qpc_pan (text : String) :
    (quickPatternCheck text).extractedInfo.pan = runPattern panQP text := rfl

theorem qpc_purpose (text : String) :
    (quickPatternCheck text).extractedInfo.purpose =
      (runPattern purposeQP text).map String.trim := rfl

theorem qpc_loanType (text : String) :
    (quickPatternCheck text).extractedInfo.loanType =
      (runPattern loanQP text).map String.trim := rfl

theorem qpc_area (text : String) :
    (quickPatternCheck text).extractedInfo.area =
      (runPattern locationQP text).map String.trim := rfl

/-- An option produced by `Option.map` is `none` iff its source is. -/
theorem map_none_of_none {α β : Type} {f : α → β} {x : Option α}
    (h : x.map f = none) : x = none := by
  cases x with
  | none => rfl
  | some v => simp at h

/-!
## Claims about the quick classifier
-/

/-- C6 (counterexample): the quick classification's confidence is claimed
to lie in 0..1, but on a message matching every pattern category the
accumulated confidence is 1.2 (twelve tenths), exceeding 1. -/
theorem confidence_reaches_twelve_tenths :
    (quickPatternCheck "name: Raj phone: 9876543210 pan: ABCDE1234F loan amount 500 for business location: Mumbai urgent finance: personal").confidenceTenths
      = 12 ∧ 10 < 12 := by
  exact ⟨by decide, by decide⟩

/-- C6 (amended): for every text input the quick classification's
confidence lies in the interval 0..1.2 — the sum of all category weights
(0.3 + 0.2 + 0.2 + 0.1 + 0.1 + 0.1 + 0.1 + 0.1) — rather than 0..1;
it can exceed 1 when enough categories match. -/
theorem confidence_at_most_twelve_tenths (text : String) :
    0 ≤ (quickPatternCheck text).confidenceTenths ∧
    (quickPatternCheck text).confidenceTenths ≤ 12 := by
  refine ⟨Nat.zero_le _, ?_⟩
  rw [qpc_conf]
  have h1 : (if (runPattern amountQP text).isSome then 3 else 0) ≤ 3 := by
    split <;> simp
  have h2 : (if (runPattern nameQP text).isSome then 2 else 0) ≤ 2 := by
    split <;> simp
  have h3 : (if (runPattern phoneQP text).isSome then 2 else 0) ≤ 2 := by
    split <;> simp
  have h4 : (if (runPattern panQP text).isSome then 1 else 0) ≤ 1 := by
    split <;> simp
  have h5 : (if (runPattern purposeQP text).isSome then 1 else 0) ≤ 1 := by
    split <;> simp
  have h6 : (if (runPattern loanQP text).isSome then 1 else 0) ≤ 1 := by
    split <;> simp
  have h7 : (if reTest urgencyQP text then 1 else 0) ≤ 1 := by
    split <;> simp
  have h8 : (if (runPattern locationQP text).isSome then 1 else 0) ≤ 1 := by
    split <;> simp
  omega

/-- C7: if the quick classification extracts no structured field (no
amount, name, phone, PAN, purpose, loan type or location area), then
`isLead` is false — the urgency keyword alone never makes a lead. -/
theorem no_fields_not_lead (text : String)
    (h1 : (quickPatternCheck text).extractedInfo.amount = none)
    (h2 : (quickPatternCheck text).extractedInfo.name = none)
    (h3 : (quickPatternCheck text).extractedInfo.phone = none)
    (h4 : (quickPatternCheck text).extractedInfo.pan = none)
    (h5 : (quickPatternCheck text).extractedInfo.purpose = none)
    (h6 : (quickPatternCheck text).extractedInfo.loanType = none)
    (h7 : (quickPatternCheck text).extractedInfo.area = none) :
    (quickPatternCheck text).isLead = false := by
  rw [qpc_amount] at h1
  rw [qpc_name] at h2
  rw [qpc_phone] at h3
  rw [qpc_pan] at h4
  rw [qpc_purpose] at h5
  rw [qpc_loanType] at h6
  rw [qpc_area] at h7
  rw [qpc_isLead, map_none_of_none h1, map_none_of_none h2, h3, h4,
    map_none_of_none h5, map_none_of_none h6, map_none_of_none h7]
  rfl

/-- C7 (witness): the message `"urgent"` carries the urgency keyword but
no extractable field, and is not classified as a lead. -/
theorem no_fields_not_lead_witness :
    (quickPatternCheck "urgent").extractedInfo.urgency = some "High" ∧
    (quickPatternCheck "urgent").isLead = false :=
  ⟨by decide,
   no_fields_not_lead "urgent" (by decide) (by decide) (by decide)
     (by decide) (by decide) (by decide) (by decide)⟩

/-- C5 (counterexample): a message carrying exactly the two signal
categories phone and amount accumulates confidence 0.5 (five tenths),
which is below the claimed 0.6, and its priority is Medium, not High. -/
theorem phone_amount_confidence_half :
    ((quickPatternCheck "phone: 9876543210 amount 50").extractedInfo.phone.isSome = true) ∧
    ((quickPatternCheck "phone: 9876543210 amount 50").extractedInfo.amount.isSome = true) ∧
    (quickPatternCheck "phone: 9876543210 amount 50").confidenceTenths = 5 ∧
    ¬ (6 ≤ (quickPatternCheck "phone: 9876543210 amount 50").confidenceTenths) ∧
    (quickPatternCheck "phone: 9876543210 amount 50").priority = "Medium" ∧
    (quickPatternCheck "phone: 9876543210 amount 50").priority ≠ "High" := by
  refine ⟨by decide, by decide, by decide, by decide, by decide, by decide⟩

/-- C5 (amended): in `quickPatternCheck` the phone and amount signals
weigh 0.2 and 0.3, so a text containing both accumulates confidence at
least 0.5 (not 0.6), is classified as a lead, and gets priority Medium
or High (never Low); priority High additionally requires further
signals pushing the confidence above 0.6. -/
theorem phone_amount_at_least_medium (text : String)
    (hp : (quickPatternCheck text).extractedInfo.phone.isSome = true)
    (ha : (quickPatternCheck text).extractedInfo.amount.isSome = true) :
    5 ≤ (quickPatternCheck text).confidenceTenths ∧
    (quickPatternCheck text).isLead = true ∧
    (quickPatternCheck text).priority ≠ "Low" := by
  rw [qpc_phone] at hp
  have ha' : (runPattern amountQP text).isSome = true := by
    rw [qpc_amount] at ha
    cases hx : runPattern amountQP text with
    | none => rw [hx] at ha; simp at ha
    | some v => simp
  have h5 : 5 ≤ (quickPatternCheck text).confidenceTenths := by
    rw [qpc_conf, hp, ha']
    simp only [if_true]
    omega
  refine ⟨h5, ?_, ?_⟩
  · rw [qpc_isLead, hp, ha']
    simp
  · rw [qpc_priority]
    by_cases h6 : 6 < (quickPatternCheck text).confidenceTenths
    · simp only [h6, if_true]
      decide
    · have h3 : 3 < (quickPatternCheck text).confidenceTenths := by omega
      simp only [h6, h3, if_true, if_false]
      decide

/-- C5 (amended, witness): the phone + amount message
`"phone: 9876543210 amount 50"` has confidence at least 0.5, is a lead
and has priority other than Low. -/
theorem phone_amount_at_least_medium_witness :
    5 ≤ (quickPatternCheck "phone: 9876543210 amount 50").confidenceTenths ∧
    (quickPatternCheck "phone: 9876543210 amount 50").isLead = true ∧
    (quickPatternCheck "phone: 9876543210 amount 50").priority ≠ "Low" :=
  phone_amount_at_least_medium "phone: 9876543210 amount 50"
    (by decide) (by decide)

/-!
## Claims about the handler, dedup and the amount parse
-/

/-- C3: the code bug behind the amount claim — `quickPatternCheck`
multiplies every parsed amount by 1000 whether or not a `k` suffix is
present (the regex's optional `[k]?` is never consulted), so the spec
scenario text yields amount 150000000 instead of 150000, while the rest
of the scenario (lead, High priority, phone) holds; `150k` and `150`
both yield 150000. -/
theorem amount_multiplied_unconditionally :
    (quickPatternCheck "Name: Ramesh, Phone: 9876543210, Loan amount 150000, urgent").extractedInfo.amount = some 150000000 ∧
    (quickPatternCheck "Name: Ramesh, Phone: 9876543210, Loan amount 150000, urgent").extractedInfo.amount ≠ some 150000 ∧
    (quickPatternCheck "Name: Ramesh, Phone: 9876543210, Loan amount 150000, urgent").isLead = true ∧
    (quickPatternCheck "Name: Ramesh, Phone: 9876543210, Loan amount 150000, urgent").priority = "High" ∧
    (quickPatternCheck "Name: Ramesh, Phone: 9876543210, Loan amount 150000, urgent").extractedInfo.phone = some "9876543210" ∧
    (quickPatternCheck "Loan amount 150k").extractedInfo.amount = some 150000 ∧
    (quickPatternCheck "Loan amount 150").extractedInfo.amount = some 150000 := by
  refine ⟨by decide, by decide, by decide, by decide, by decide, by decide,
    by decide⟩

/-- C2: for every inbound group message that passes the dedup-marker,
own-message, empty-content, monitored-group and monitoring-enabled
guards, the handler's `try` block dereferences the undeclared name
`leadTracker` and the per-message `catch` swallows the resulting
`ReferenceError`; the lead store and the outbound queue are untouched,
so no group message ever produces a Lead Record. -/
theorem groupBranch_caughtReferenceError (monitoring : Bool)
    (groupName : String) (m : GroupMessage) (w : HandlerWorld)
    (hproc : w.processedIds.contains m.messageId = false)
    (hme : m.fromMe = false)
    (hne : m.combinedContent ≠ "")
    (hmon : groupsToMonitor.contains groupName = true)
    (hon : monitoring = true) :
    (processGroupMessage monitoring groupName m w).1 =
      .caughtError "leadTracker is not defined" ∧
    (processGroupMessage monitoring groupName m w).2.lm = w.lm ∧
    (processGroupMessage monitoring groupName m w).2.sent = w.sent := by
  have hlt : "leadTracker" ∉ botTopLevelNames := by decide
  have hproc2 : m.messageId ∉ w.processedIds := by simpa using hproc
  have hmon2 : groupName ∈ groupsToMonitor := by simpa using hmon
  simp [processGroupMessage, hproc2, hme, hne, hmon2, hon, hlt]

/-- C2 (witness): a concrete fresh message in the monitored group
`"Bajaj + Dr Shetty"` with monitoring enabled ends in the caught
`ReferenceError` and changes neither the lead store nor the queue. -/
theorem groupBranch_caughtReferenceError_witness :
    (processGroupMessage true "Bajaj + Dr Shetty"
        ⟨"M1", false, "need loan", "grp@g.us"⟩ ⟨⟨[], []⟩, [], []⟩).1 =
      .caughtError "leadTracker is not defined" ∧
    (processGroupMessage true "Bajaj + Dr Shetty"
        ⟨"M1", false, "need loan", "grp@g.us"⟩ ⟨⟨[], []⟩, [], []⟩).2.lm =
      (⟨⟨[], []⟩, [], []⟩ : HandlerWorld).lm ∧
    (processGroupMessage true "Bajaj + Dr Shetty"
        ⟨"M1", false, "need loan", "grp@g.us"⟩ ⟨⟨[], []⟩, [], []⟩).2.sent =
      (⟨⟨[], []⟩, [], []⟩ : HandlerWorld).sent :=
  groupBranch_caughtReferenceError true "Bajaj + Dr Shetty"
    ⟨"M1", false, "need loan", "grp@g.us"⟩ ⟨⟨[], []⟩, [], []⟩
    (by decide) (by decide) (by decide) (by decide) (by decide)

/-- A lead record already tracking phone `9876543210`, as posited by the
dedup scenario. -/
def dedupLead : Lead :=
  { id := "LEAD-1000-abc"
    data := { name := some "Ramesh", phone := some "9876543210",
              amount := some 150000, isUrgent := true }
    assignee := none
    status := "New"
    category := "High"
    createdAt := 1000
    updatedAt := 1000
    history := [⟨"Created", 1000, "Lead created"⟩] }

/-- Handler state holding `dedupLead`. -/
def dedupWorld : HandlerWorld :=
  ⟨⟨[("LEAD-1000-abc", dedupLead)], [("LEAD-1000-abc", dedupLead)]⟩, [], []⟩

/-- A follow-up message quoting the tracked phone number. -/
def dedupMsg : GroupMessage :=
  ⟨"MSG-2", false, "Phone: 9876543210 loan 50k urgent", "grp@g.us"⟩

/-- C1: the code bug behind the dedup claim — with a Lead Record for
phone `9876543210` already stored, a subsequent group message carrying
the same phone number is still returned by the quick classification with
`isNewLead = true` (the constant in its return object), and the handler
dies on the undeclared `leadTracker` before any dedup check, leaving the
existing record without a new history entry (and creating nothing). -/
theorem dedup_phone_message_not_followUp :
    lookupLead dedupWorld.lm.leads "LEAD-1000-abc" = some dedupLead ∧
    dedupLead.data.phone = some "9876543210" ∧
    (quickPatternCheck dedupMsg.combinedContent).extractedInfo.phone =
      some "9876543210" ∧
    (quickPatternCheck dedupMsg.combinedContent).isNewLead = true ∧
    (quickPatternCheck dedupMsg.combinedContent).isNewLead ≠ false ∧
    (processGroupMessage true "Bajaj + Dr Shetty" dedupMsg dedupWorld).1 =
      .caughtError "leadTracker is not defined" ∧
    (processGroupMessage true "Bajaj + Dr Shetty" dedupMsg dedupWorld).2.lm =
      dedupWorld.lm := by
  refine ⟨by decide, by decide, by decide, by decide, by decide, by decide,
    by decide⟩

/-!
## Claims about the Outbound Throttle (spec-modelled)
-/

/-- C4: acknowledgement cooldown of the spec-modelled throttle — a
first-ever acknowledgement is always allowed; after an acknowledgement
recorded at time `t`, a further one at time `now` is allowed iff at
least 60 minutes (3 600 000 ms) have elapsed; in particular it is
refused 30 minutes later and allowed 61 minutes later. -/
theorem mayRespond_cooldown_60min (st : ThrottleState) (conv : String)
    (t now : Nat) :
    (lastAckTime st conv = none → mayRespond st conv now = true) ∧
    (mayRespond (recordResponse st conv t) conv now = true ↔
      t + 3600000 ≤ now) ∧
    mayRespond (recordResponse st conv t) conv (t + 1800000) = false ∧
    mayRespond (recordResponse st conv t) conv (t + 3660000) = true := by
  have hrec : lastAckTime (recordResponse st conv t) conv = some t := by
    simp [lastAckTime, recordResponse]
  refine ⟨?_, ?_, ?_, ?_⟩
  · intro h
    simp [mayRespond, h]
  · simp [mayRespond, hrec]
  · simp [mayRespond, hrec]
  · simp [mayRespond, hrec]

/-- C4 (witness): with no previous acknowledgement the send is allowed;
after one at time 1000 ms, a send 30 minutes later is refused and a send
61 minutes later is allowed. -/
theorem mayRespond_cooldown_60min_witness :
    mayRespond ⟨[]⟩ "grp@g.us" 0 = true ∧
    mayRespond (recordResponse ⟨[]⟩ "grp@g.us" 1000) "grp@g.us"
      (1000 + 1800000) = false ∧
    mayRespond (recordResponse ⟨[]⟩ "grp@g.us" 1000) "grp@g.us"
      (1000 + 3660000) = true :=
  ⟨(mayRespond_cooldown_60min ⟨[]⟩ "grp@g.us" 1000 0).1 (by decide),
   (mayRespond_cooldown_60min ⟨[]⟩ "grp@g.us" 1000 0).2.2.1,
   (mayRespond_cooldown_60min ⟨[]⟩ "grp@g.us" 1000 0).2.2.2⟩

/-!
## Claims about the Lead Store
-/

/-- C8: `createLead` sets status `New`, appends exactly one `Created`
history entry, and categorizes High when the urgency flag is set or the
amount exceeds 100000, Medium when the amount exceeds 50000, and Low
otherwise (an absent amount never exceeds a threshold); in particular
amount 60000 without urgency gives Medium. -/
theorem createLead_status_history_category (now : Nat) (rand : String)
    (d : LeadData) (w : LMWorld) (a : Nat) :
    (createLead now rand d w).1.status = "New" ∧
    (createLead now rand d w).1.history = [⟨"Created", now, "Lead created"⟩] ∧
    (d.isUrgent = true → (createLead now rand d w).1.category = "High") ∧
    (d.amount = some a → 100000 < a →
      (createLead now rand d w).1.category = "High") ∧
    (d.isUrgent = false → d.amount = some a → a ≤ 100000 → 50000 < a →
      (createLead now rand d w).1.category = "Medium") ∧
    (d.isUrgent = false → d.amount = some a → a ≤ 50000 →
      (createLead now rand d w).1.category = "Low") ∧
    (d.isUrgent = false → d.amount = none →
      (createLead now rand d w).1.category = "Low") := by
  refine ⟨rfl, rfl, ?_, ?_, ?_, ?_, ?_⟩
  · intro hu
    simp [createLead, categorizeLead, hu]
  · intro hs hgt
    simp [createLead, categorizeLead, hs, optGtNat, hgt]
  · intro hu hs hle hgt
    have g1 : optGtNat d.amount 100000 = false := by
      rw [hs]; simp [optGtNat]; omega
    have g2 : optGtNat d.amount 50000 = true := by
      rw [hs]; simp [optGtNat]; omega
    simp [createLead, categorizeLead, hu, g1, g2]
  · intro hu hs hle
    have g1 : optGtNat d.amount 100000 = false := by
      rw [hs]; simp [optGtNat]; omega
    have g2 : optGtNat d.amount 50000 = false := by
      rw [hs]; simp [optGtNat]; omega
    simp [createLead, categorizeLead, hu, g1, g2]
  · intro hu hn
    simp [createLead, categorizeLead, hu, hn, optGtNat]

/-- C8 (witness): a lead created with amount 60000 and no urgency flag is
status `New` with the single `Created` entry and category `Medium`. -/
theorem createLead_status_history_category_witness :
    (createLead 5 "r1x" ⟨some "A", some "9876543210", some 60000, false⟩
      ⟨[], []⟩).1.status = "New" ∧
    (createLead 5 "r1x" ⟨some "A", some "9876543210", some 60000, false⟩
      ⟨[], []⟩).1.history = [⟨"Created", 5, "Lead created"⟩] ∧
    (createLead 5 "r1x" ⟨some "A", some "9876543210", some 60000, false⟩
      ⟨[], []⟩).1.category = "Medium" := by
  have h := createLead_status_history_category 5 "r1x"
    ⟨some "A", some "9876543210", some 60000, false⟩ ⟨[], []⟩ 60000
  exact ⟨h.1, h.2.1,
    h.2.2.2.2.1 (by decide) (by decide) (by decide) (by decide)⟩

/-- C9: `updateLead` on an unknown id fails with the `Lead not found`
error and returns the store completely unchanged; on a known id it
merges the patch, appends exactly one `Updated` history entry
summarizing the patch, stamps `updatedAt`, and re-persists the updated
lead map before returning. -/
theorem updateLead_notFound_and_merge (now : Nat) (id : String)
    (p : LeadPatch) (w : LMWorld) :
    (lookupLead w.leads id = none →
      updateLead now id p w = (Except.error "Lead not found", w)) ∧
    (∀ l, lookupLead w.leads id = some l →
      ∃ l2,
        updateLead now id p w =
          (Except.ok l2, ⟨setLead w.leads id l2, setLead w.leads id l2⟩) ∧
        l2.history = l.history ++ [⟨"Updated", now, renderPatch p⟩] ∧
        l2.status = p.status.getD l.status ∧
        l2.updatedAt = now) := by
  constructor
  · intro h
    simp [updateLead, h]
  · intro l h
    refine ⟨{ applyPatch l p with
        updatedAt := now
        history := l.history ++ [⟨"Updated", now, renderPatch p⟩] },
      ?_, rfl, rfl, rfl⟩
    simp [updateLead, h]

/-- A stored lead used to exercise the update path. -/
def updLead : Lead :=
  { id := "L1"
    data := { name := some "B", phone := none, amount := some 70000,
              isUrgent := false }
    assignee := none
    status := "New"
    category := "Medium"
    createdAt := 3
    updatedAt := 3
    history := [⟨"Created", 3, "Lead created"⟩] }

/-- A one-lead store. -/
def updWorld : LMWorld := ⟨[("L1", updLead)], [("L1", updLead)]⟩

/-- The patch used to exercise the update path. -/
def updPatch : LeadPatch := ⟨some "Closed", none⟩

/-- C9 (witness): updating the unknown id `NOPE` fails with
`Lead not found` leaving the store untouched, and updating the known id
`L1` merges the status patch, appends one `Updated` entry and
re-persists. -/
theorem updateLead_notFound_and_merge_witness :
    updateLead 7 "NOPE" updPatch updWorld =
      (Except.error "Lead not found", updWorld) ∧
    (∃ l2,
      updateLead 7 "L1" updPatch updWorld =
        (Except.ok l2, ⟨setLead updWorld.leads "L1" l2,
          setLead updWorld.leads "L1" l2⟩) ∧
      l2.history = updLead.history ++ [⟨"Updated", 7, renderPatch updPatch⟩] ∧
      l2.status = updPatch.status.getD updLead.status ∧
      l2.updatedAt = 7) :=
  ⟨(updateLead_notFound_and_merge 7 "NOPE" updPatch updWorld).1 (by decide),
   (updateLead_notFound_and_merge 7 "L1" updPatch updWorld).2 updLead
     (by decide)⟩

/-- C10: the conversion rate is `closed / total × 100` for a non-empty
store and exactly 0 for an empty one — the `total > 0` guard prevents
the division by zero. -/
theorem conversionRate_ratio_and_empty (leads : List Lead) :
    (leads.length = 0 → calculateConversionRate leads = 0) ∧
    (0 < leads.length →
      calculateConversionRate leads =
        (((leads.filter fun l => l.status = "Closed").length : ℚ) /
          (leads.length : ℚ)) * 100) := by
  constructor
  · intro h
    simp [calculateConversionRate, h]
  · intro h
    simp only [calculateConversionRate]
    rw [if_pos h]

/-- C10 (witness): the empty store has conversion rate exactly 0, and a
one-lead store gets the `closed / total × 100` formula. -/
theorem conversionRate_ratio_and_empty_witness :
    calculateConversionRate [] = 0 ∧
    calculateConversionRate [updLead] =
      ((([updLead].filter fun l => l.status = "Closed").length : ℚ) /
        (([updLead] : List Lead).length : ℚ)) * 100 :=
  ⟨(conversionRate_ratio_and_empty []).1 rfl,
   (conversionRate_ratio_and_empty [updLead]).2 (by decide)⟩

end WABot
